import Mathlib

set_option maxRecDepth 100000

/-!
Shallow embedding of `src/app.py` (Gemini StudyPal), a single-file Streamlit
application.  The embedding models:

* the cached generation wrapper `generate_content` (lines 103-135), including
  the semantics of the `st.cache_data` decorator: parameters whose name starts
  with an underscore (`_client`, `_images`) are excluded from the cache key,
  and the returned value is cached whatever it is (including `None`);
* the session-state fields initialised at lines 142-147 and mutated by the
  Analyze trigger (lines 176-191) and by the video tab (lines 318-320);
* the four tab renderers (lines 207-331), with Python's dynamic field access
  (`card['question']`, `q['options'].items()`, `'key' in value`, truthiness)
  modelled by total functions into `Except`, whose `error` constructor stands
  for an uncaught Python exception raised during rendering.

External collaborators are injected through `Env`:
`Env.clientConfigured` models `client is not None` (presence of
`GEMINI_API_KEY`), `Env.remote` models `client.models.generate_content`
(either raising an exception or returning `response.text`), and `Env.parse`
models `json.loads` (`none` standing for `json.JSONDecodeError`).
-/

/-- JSON values, the result of `json.loads` on the model's response text. -/
inductive Json where
  | null : Json
  | bool (b : Bool) : Json
  | num (n : Int) : Json
  | str (s : String) : Json
  | arr (xs : List Json) : Json
  | obj (fields : List (String × Json)) : Json

/-- An uploaded image after `Image.open`; only its identity matters to the
pipeline, so it is modelled by a tag. -/
abbrev Img := Nat

/-- Outcome of the remote call `client.models.generate_content`: either the
call raises a Python exception (caught at line 133) or it returns a response
whose `.text` field is a string. -/
inductive RemoteOutcome where
  | raises (msg : String) : RemoteOutcome
  | returns (text : String) : RemoteOutcome

/-- Which branch of `generate_content` produced a `None` return: the
missing-client short-circuit (line 107), the API exception handler
(line 133), or the JSON-decode handler (line 128).  The Python function
returns the bare `None` in all three cases; the kind records the branch and
the diagnostic text surfaced via `st.error`. -/
inductive FailKind where
  | configError : FailKind
  | apiError (msg : String) : FailKind
  | parseError (rawPrefix : String) : FailKind

/-- The value returned by `generate_content`: the parsed JSON payload on
success, `None` (with its provenance) otherwise. -/
inductive GenResult where
  | failure (k : FailKind) : GenResult
  | success (j : Json) : GenResult

/-- What the Python caller sees: failures are the bare `None`. -/
def GenResult.toPy : GenResult → Option Json
  | GenResult.failure _ => none
  | GenResult.success j => some j

/-- External collaborators of the pipeline. -/
structure Env where
  clientConfigured : Bool
  remote : List Img → String → String → RemoteOutcome
  parse : String → Option Json

/-- State of the `st.cache_data` result cache, instrumented with a count and
log of remote-model invocations (the instrumentation is not part of the
program state; it records observable network I/O).  A cache key is the pair
(system_instruction, prompt): the `_client` and `_images` parameters carry a
leading underscore, which `st.cache_data` excludes from hashing (see the
comments at lines 104 and 217 of the source). -/
structure CacheState where
  cache : List ((String × String) × GenResult)
  remoteCalls : Nat
  requests : List (List Img × String × String)

/-- Empty cache, no remote calls issued yet. -/
def initCache : CacheState := { cache := [], remoteCalls := 0, requests := [] }

/-- Embedding of `generate_content` (lines 103-135) together with its
`st.cache_data` wrapper.  On a cache hit the stored value is returned with no
remote invocation; on a miss the body runs: missing client returns `None`
immediately (no network), otherwise the remote model is invoked and the
response text parsed, and the resulting value
(`None` included) is stored under the key. -/
def generate_content (env : Env) (c : CacheState) (images : List Img)
    (system_instruction prompt : String) : GenResult × CacheState :=
  let key := (system_instruction, prompt)
  match c.cache.find? (fun e => e.1 == key) with
  | some e => (e.2, c)
  | none =>
    if env.clientConfigured then
      let c1 := { c with remoteCalls := c.remoteCalls + 1,
                         requests := c.requests ++ [(images, system_instruction, prompt)] }
      let r :=
        match env.remote images system_instruction prompt with
        | RemoteOutcome.raises msg => GenResult.failure (FailKind.apiError msg)
        | RemoteOutcome.returns text =>
          match env.parse text with
          | some j => GenResult.success j
          | none => GenResult.failure (FailKind.parseError (text.take 200))
      (r, { c1 with cache := (key, r) :: c1.cache })
    else
      let r := GenResult.failure FailKind.configError
      (r, { c with cache := (key, r) :: c.cache })

/-- Runs a sequence of `generate_content` calls, threading the cache. -/
def runCalls (env : Env) : CacheState → List (List Img × String × String) → CacheState
  | c, [] => c
  | c, q :: rest => runCalls env (generate_content env c q.1 q.2.1 q.2.2).2 rest

/-- Python truthiness of a JSON value (`if flashcards:` and friends). -/
def pyTruthy : Json → Bool
  | Json.null => false
  | Json.bool b => b
  | Json.num n => n != 0
  | Json.str s => s != ""
  | Json.arr xs => !xs.isEmpty
  | Json.obj fields => !fields.isEmpty

/-- Python truthiness of a value that is `None` or a JSON value. -/
def pyTruthyOpt : Option Json → Bool
  | none => false
  | some j => pyTruthy j

/-- Python truthiness of a value that is `None` or a string
(`if st.session_state.video_url:`). -/
def pyTruthyStrOpt : Option String → Bool
  | none => false
  | some s => s != ""

/-- Does a parsed JSON object carry the given key? -/
def hasKey (fields : List (String × Json)) (k : String) : Bool :=
  fields.any (fun f => f.1 == k)

/-- Python `value[k]` for a string key `k`: dictionary lookup on an object,
`KeyError` when the key is absent, `TypeError` on every other JSON value. -/
def pySubscript (j : Json) (k : String) : Except String Json :=
  match j with
  | Json.obj fields =>
    match fields.find? (fun f => f.1 == k) with
    | some f => Except.ok f.2
    | none => Except.error ("KeyError")
  | _ => Except.error ("TypeError: value cannot be indexed by a string")

/-- Python iteration `for x in value`: the elements of a list, the keys of a
dictionary, the characters of a string; `TypeError` otherwise. -/
def pyIter (j : Json) : Except String (List Json) :=
  match j with
  | Json.arr xs => Except.ok xs
  | Json.obj fields => Except.ok (fields.map (fun f => Json.str f.1))
  | Json.str s => Except.ok (s.toList.map (fun ch => Json.str (String.mk [ch])))
  | _ => Except.error ("TypeError: value is not iterable")

/-- Python `value.items()`: the key/value pairs of a dictionary,
`AttributeError` on every other JSON value. -/
def pyItems (j : Json) : Except String (List (String × Json)) :=
  match j with
  | Json.obj fields => Except.ok fields
  | _ => Except.error ("AttributeError: value has no attribute items")

/-- Python `element == k` for a string `k` against a JSON-derived element:
true exactly for the equal string. -/
def Json.eqStr (j : Json) (k : String) : Bool :=
  match j with
  | Json.str s => s == k
  | _ => false

/-- Is `pat` a substring of `s` (Python `pat in s`)? -/
def strContains (s pat : String) : Bool :=
  (List.range (s.length + 1)).any (fun i => pat.isPrefixOf (s.drop i))

/-- Python `k in value` for a string `k`: key test on a dictionary, element
test on a list, substring test on a string, `TypeError` otherwise. -/
def pyContains (j : Json) (k : String) : Except String Bool :=
  match j with
  | Json.obj fields => Except.ok (hasKey fields k)
  | Json.arr xs => Except.ok (xs.any (fun x => Json.eqStr x k))
  | Json.str s => Except.ok (strContains s k)
  | _ => Except.error ("TypeError: value is not a container")

/-- The whitespace characters removed by Python's `str.strip()`. -/
def pyWhitespace (c : Char) : Bool :=
  c == ' ' || c == '\t' || c == '\n' || c == '\r' || c == Char.ofNat 11 || c == Char.ofNat 12

/-- Python `raw_url.strip()` (line 315). -/
def pyStrip (s : String) : String :=
  String.mk (((s.toList.dropWhile pyWhitespace).reverse.dropWhile pyWhitespace).reverse)

/-- Embedding of `re.sub(r'(^"|"$)', '', clean_url)` (line 316): the regex
removes one leading and one trailing double-quote character when present. -/
def stripEdgeQuotes (s : String) : String :=
  let l1 :=
    match s.toList with
    | [] => []
    | c :: rest => if c == '"' then rest else c :: rest
  let l2 :=
    match l1.reverse with
    | [] => l1
    | c :: rest => if c == '"' then rest.reverse else l1
  String.mk l2

/-- The URL-cleaning step of the video tab (lines 315-316). -/
def cleanUrl (raw_url : String) : String :=
  stripEdgeQuotes (pyStrip raw_url)

/-- System instruction of the flashcards tab (lines 210-214), with the
subject substituted for the f-string placeholder. -/
def fc_sys_instruction (subject : String) : String :=
  "You are an expert study assistant for " ++ subject ++ ". Analyze the images and extract key terms or concepts. Generate a flashcard for each. Output must be a strict JSON array of objects with keys 'question' and 'answer'."

/-- User prompt of the flashcards tab (line 215). -/
def fc_prompt : String :=
  "Generate a comprehensive set of flashcards based on the image content."

/-- System instruction of the quiz tab (lines 234-238). -/
def quiz_sys_instruction (subject : String) : String :=
  "You are a quiz master for " ++ subject ++ ". Create a 10-question multiple-choice quiz based on the images. Each question must have 4 options (A, B, C, D) and a correct answer. Output must be a strict JSON array of objects with keys: 'question', 'options' (object mapping A-D to choices), 'correct_answer', and 'explanation'."

/-- User prompt of the quiz tab (line 239). -/
def quiz_prompt : String :=
  "Generate a challenging 10-question multiple-choice quiz."

/-- System instruction of the explainer tab (lines 264-270). -/
def solver_sys_instruction (subject : String) : String :=
  "You are a helpful tutor for " ++ subject ++ ". Analyze the images for any complex concepts or mathematical problems. If a problem is present, provide a clear, numbered step-by-step solution. If concepts are present, provide a clear, simple explanation for one of the core concepts. Output must be a strict JSON object with a single key: 'tutor_response', containing the full text of the solution or explanation, formatted in markdown (use **bold** and steps)."

/-- User prompt of the explainer tab (lines 271-274). -/
def solver_prompt : String :=
  "Analyze the images and either (1) pick a difficult concept and explain it simply and clearly, or (2) solve the most prominent problem shown, providing a clear, numbered, step-by-step solution."

/-- System instruction of the video tab (lines 300-305). -/
def video_sys_instruction (subject : String) : String :=
  "You are an expert video suggester for " ++ subject ++ ". Analyze the images and identify the single most complex or interesting concept that would benefit from a video explanation. Search YouTube and provide the URL for the best, most relevant educational video. Output must be a strict JSON object with keys: 'video_search_query' (the topic you searched for) and 'video_url' (the full YouTube URL)."

/-- User prompt of the video tab (line 306). -/
def video_prompt : String :=
  "Identify the core concept and provide the best educational YouTube video URL for that concept."

/-- The `st.session_state` fields used by the app.  `image_list` and
`subject` are only created by the Analyze trigger and only read under the
`ready` guard; they default to empty here. -/
structure Session where
  ready : Bool
  video_url : Option String
  video_search_query : Option Json
  image_list : List Img
  subject : String

/-- Session state after the initialisation at lines 142-147 on a fresh
session: `ready = False`, `video_url = None`, `video_search_query = None`. -/
def initSession : Session :=
  { ready := false, video_url := none, video_search_query := none,
    image_list := [], subject := "" }

/-- The Analyze-button trigger (lines 176-191): clear the result cache,
reset both video fields to `None`, decode the uploaded files (`none` models
`Image.open` raising, in which case the handler stores an empty list), store
the subject, and set `ready = True`. -/
def analyzeTrigger (decoded : Option (List Img)) (subject_input : String)
    (s : Session) (c : CacheState) : Session × CacheState :=
  let c1 := { c with cache := [] }
  let s1 := { s with video_url := none, video_search_query := none }
  let image_list := match decoded with | some l => l | none => []
  ({ s1 with image_list := image_list, subject := subject_input, ready := true }, c1)

/-- What a tab panel displays at the end of its body: `st.success` after a
rendered result, or the `st.warning` fallback. -/
inductive TabMsg where
  | success : TabMsg
  | warning : TabMsg

/-- The flashcard loop (lines 221-223): each card's `['question']` and
`['answer']` are read inside the expander. -/
def renderCards : List Json → Except String Unit
  | [] => Except.ok ()
  | card :: rest => do
    let _ ← pySubscript card ("question")
    let _ ← pySubscript card ("answer")
    renderCards rest

/-- The flashcards tab (lines 218-226): warn when the result is falsy,
otherwise iterate the cards; a missing key raises. -/
def renderFlashcards (res : Option Json) : Except String TabMsg :=
  match res with
  | none => Except.ok TabMsg.warning
  | some j =>
    if pyTruthy j then do
      let cards ← pyIter j
      let _ ← renderCards cards
      Except.ok TabMsg.success
    else Except.ok TabMsg.warning

/-- The quiz loop (lines 245-253): each question's `['question']`,
`['options'].items()`, `['correct_answer']` and `['explanation']` are read. -/
def renderQuizItems : List Json → Except String Unit
  | [] => Except.ok ()
  | q :: rest => do
    let _ ← pySubscript q ("question")
    let opts ← pySubscript q ("options")
    let _ ← pyItems opts
    let _ ← pySubscript q ("correct_answer")
    let _ ← pySubscript q ("explanation")
    renderQuizItems rest

/-- The quiz tab (lines 242-256). -/
def renderQuiz (res : Option Json) : Except String TabMsg :=
  match res with
  | none => Except.ok TabMsg.warning
  | some j =>
    if pyTruthy j then do
      let qs ← pyIter j
      let _ ← renderQuizItems qs
      Except.ok TabMsg.success
    else Except.ok TabMsg.warning

/-- The explainer tab (lines 277-284): `if solver_data and 'tutor_response'
in solver_data:` renders the response, otherwise the warning. -/
def renderExplainer (res : Option Json) : Except String TabMsg :=
  match res with
  | none => Except.ok TabMsg.warning
  | some j =>
    if pyTruthy j then
      match pyContains j ("tutor_response") with
      | Except.error e => Except.error e
      | Except.ok false => Except.ok TabMsg.warning
      | Except.ok true =>
        match pySubscript j ("tutor_response") with
        | Except.error e => Except.error e
        | Except.ok _ => Except.ok TabMsg.success
    else Except.ok TabMsg.warning

/-- Handling of the video payload (lines 312-329): guard
`if video_data and 'video_url' in video_data and 'video_search_query' in
video_data:`, then clean the URL and store both session fields; otherwise
warn.  An `error` result carries the session as mutated up to the raise. -/
def videoHandlePayload (s : Session) (res : Option Json) :
    Except (String × Session) (TabMsg × Session) :=
  match res with
  | none => Except.ok (TabMsg.warning, s)
  | some j =>
    if pyTruthy j then
      match pyContains j ("video_url") with
      | Except.error e => Except.error (e, s)
      | Except.ok false => Except.ok (TabMsg.warning, s)
      | Except.ok true =>
        match pyContains j ("video_search_query") with
        | Except.error e => Except.error (e, s)
        | Except.ok false => Except.ok (TabMsg.warning, s)
        | Except.ok true =>
          match pySubscript j ("video_url") with
          | Except.error e => Except.error (e, s)
          | Except.ok raw =>
            match raw with
            | Json.str rawStr =>
              let clean_url := cleanUrl rawStr
              let s1 := { s with video_url := some clean_url }
              match pySubscript j ("video_search_query") with
              | Except.error e => Except.error (e, s1)
              | Except.ok qval =>
                Except.ok (TabMsg.success, { s1 with video_search_query := some qval })
            | _ => Except.error ("AttributeError: value has no attribute strip", s)
    else Except.ok (TabMsg.warning, s)

/-- The video tab (lines 289-331): when `st.session_state.video_url` is
truthy the stored recommendation is shown with no generation call; otherwise
`generate_content` is invoked and its payload handled. -/
def renderVideoTab (env : Env) (s : Session) (c : CacheState) :
    Except (String × Session × CacheState) (TabMsg × Session × CacheState) :=
  if pyTruthyStrOpt s.video_url then Except.ok (TabMsg.success, s, c)
  else
    let r := generate_content env c s.image_list (video_sys_instruction s.subject) video_prompt
    match videoHandlePayload s r.1.toPy with
    | Except.error es => Except.error (es.1, es.2, r.2)
    | Except.ok ms => Except.ok (ms.1, ms.2, r.2)

/-- Outcome of one rendering pass: the final session, cache and tab messages,
or an uncaught exception together with the state reached when it was
raised. -/
inductive PassResult where
  | ok (s : Session) (c : CacheState) (msgs : List TabMsg) : PassResult
  | crash (err : String) (s : Session) (c : CacheState) : PassResult

/-- The results section of one script run (lines 194-331): when `ready`, the
four tab bodies run in order, each issuing its `generate_content` call and
rendering the payload; a raise in a tab aborts the rest of the pass. -/
def renderPass (env : Env) (s : Session) (c : CacheState) : PassResult :=
  if s.ready then
    let images := s.image_list
    let subject := s.subject
    let r1 := generate_content env c images (fc_sys_instruction subject) fc_prompt
    match renderFlashcards r1.1.toPy with
    | Except.error e => PassResult.crash e s r1.2
    | Except.ok m1 =>
      let r2 := generate_content env r1.2 images (quiz_sys_instruction subject) quiz_prompt
      match renderQuiz r2.1.toPy with
      | Except.error e => PassResult.crash e s r2.2
      | Except.ok m2 =>
        let r3 := generate_content env r2.2 images (solver_sys_instruction subject) solver_prompt
        match renderExplainer r3.1.toPy with
        | Except.error e => PassResult.crash e s r3.2
        | Except.ok m3 =>
          match renderVideoTab env s r3.2 with
          | Except.error esc => PassResult.crash esc.1 esc.2.1 esc.2.2
          | Except.ok msc => PassResult.ok msc.2.1 msc.2.2 [m1, m2, m3, msc.1]
  else PassResult.ok s c []

/-- The implicit invariant of claim C10: the two video session fields are
either both `None` or both populated. -/
def vidConsistent (s : Session) : Bool :=
  (s.video_url.isNone && s.video_search_query.isNone) ||
  (s.video_url.isSome && s.video_search_query.isSome)

/-- Every cached value is the config-error `None` (the only value the body
can produce while no client is configured). -/
def configErrorOnly (c : CacheState) : Prop :=
  ∀ e ∈ c.cache, e.2 = GenResult.failure FailKind.configError

/-- A configured client whose remote call always raises (a network failure),
with `json.loads` never reached. -/
def cexEnvC1 : Env :=
  ⟨true, fun _ _ _ => RemoteOutcome.raises ("boom"), fun _ => none⟩

/-- A configured client whose response text depends on the uploaded images:
image set `[0]` yields the JSON text for the string A, any other set the
JSON text for the string B; `json.loads` parses exactly those two texts. -/
def cexEnvC2 : Env :=
  ⟨true,
   fun imgs _ _ =>
     if imgs == [0] then RemoteOutcome.returns ("\"A\"") else RemoteOutcome.returns ("\"B\""),
   fun t =>
     if t == "\"A\"" then some (Json.str ("A"))
     else if t == "\"B\"" then some (Json.str ("B")) else none⟩

/-- A configured client whose responses are always the empty JSON array. -/
def jsonListEnv : Env :=
  ⟨true, fun _ _ _ => RemoteOutcome.returns ("[]"),
   fun t => if t == "[]" then some (Json.arr []) else none⟩

/-- No client configured (missing `GEMINI_API_KEY`). -/
def noClientEnv : Env :=
  ⟨false, fun _ _ _ => RemoteOutcome.raises (""), fun _ => none⟩

/-- A configured client that always returns non-JSON prose. -/
def cexEnvC8 : Env :=
  ⟨true, fun _ _ _ => RemoteOutcome.returns ("Sorry, I cannot help"), fun _ => none⟩

/-- The video-task JSON payload whose `video_url` field is the empty
string. -/
def emptyUrlPayload : Json :=
  Json.obj [("video_search_query", Json.str ("q")), ("video_url", Json.str (""))]

/-- A configured client returning a video payload whose URL is empty;
`json.loads` parses exactly that response text. -/
def cexEnvC6 : Env :=
  ⟨true,
   fun _ _ _ =>
     RemoteOutcome.returns ("\x7b\"video_search_query\": \"q\", \"video_url\": \"\"\x7d"),
   fun t =>
     if t == "\x7b\"video_search_query\": \"q\", \"video_url\": \"\"\x7d" then
       some emptyUrlPayload
     else none⟩

/-- Session right after an Analyze trigger: ready, no video recommendation. -/
def readySession : Session :=
  { ready := true, video_url := none, video_search_query := none,
    image_list := [], subject := "General Study" }

/-- Session after the video tab stored the empty-URL recommendation. -/
def s1c6 : Session :=
  { ready := true, video_url := some (""), video_search_query := some (Json.str ("q")),
    image_list := [], subject := "General Study" }

/-- Cache state after the first video-tab call of `cexEnvC6`. -/
def c1c6 : CacheState :=
  { cache := [((video_sys_instruction ("General Study"), video_prompt),
               GenResult.success emptyUrlPayload)],
    remoteCalls := 1,
    requests := [([], video_sys_instruction ("General Study"), video_prompt)] }

/-- Cache state after the second video-tab call that follows a cache clear. -/
def c2c6 : CacheState :=
  { cache := [((video_sys_instruction ("General Study"), video_prompt),
               GenResult.success emptyUrlPayload)],
    remoteCalls := 2,
    requests := [([], video_sys_instruction ("General Study"), video_prompt)] }

/-- Cache state after the four generation calls of one completed pass under
`jsonListEnv`, subject General Study, with zero images. -/
def c2w9 : CacheState :=
  { cache :=
      [((video_sys_instruction ("General Study"), video_prompt), GenResult.success (Json.arr [])),
       ((solver_sys_instruction ("General Study"), solver_prompt), GenResult.success (Json.arr [])),
       ((quiz_sys_instruction ("General Study"), quiz_prompt), GenResult.success (Json.arr [])),
       ((fc_sys_instruction ("General Study"), fc_prompt), GenResult.success (Json.arr []))],
    remoteCalls := 4,
    requests :=
      [([], fc_sys_instruction ("General Study"), fc_prompt),
       ([], quiz_sys_instruction ("General Study"), quiz_prompt),
       ([], solver_sys_instruction ("General Study"), solver_prompt),
       ([], video_sys_instruction ("General Study"), video_prompt)] }

/-- A session holding a populated (non-empty) video recommendation. -/
def svid : Session :=
  { ready := true, video_url := some ("https://youtu.be/abc"),
    video_search_query := some (Json.str ("q")), image_list := [],
    subject := "General Study" }

/-- After any `generate_content` call, a repeat call under the same
(system_instruction, prompt) key — whatever images are passed — is a cache
hit: it returns the first call's value and leaves the state unchanged. -/
theorem generate_content_stable (env : Env) (c : CacheState) (i1 i2 : List Img) (si p : String) :
    generate_content env (generate_content env c i1 si p).2 i2 si p =
      ((generate_content env c i1 si p).1, (generate_content env c i1 si p).2) := by
  unfold generate_content
  cases hf : c.cache.find? (fun e => e.1 == (si, p)) with
  | some e => simp [hf]
  | none =>
    by_cases hc : env.clientConfigured
    · simp [hf, hc, List.find?]
    · simp [hf, hc, List.find?]

/-- One `generate_content` call issues at most one remote invocation. -/
theorem generate_content_remoteCalls_le (env : Env) (c : CacheState) (images : List Img)
    (si p : String) :
    (generate_content env c images si p).2.remoteCalls ≤ c.remoteCalls + 1 := by
  unfold generate_content
  cases hf : c.cache.find? (fun e => e.1 == (si, p)) with
  | some e => simp [hf]
  | none =>
    by_cases hc : env.clientConfigured
    · simp [hf, hc]
    · simp [hf, hc]

/-- With no client configured, a `generate_content` call returns the
config-error `None`, performs no network I/O, and preserves the property
that every cached value is the config-error `None`. -/
theorem generate_content_noClient (env : Env) (h : env.clientConfigured = false)
    (c : CacheState) (hc : configErrorOnly c) (images : List Img) (si p : String) :
    (generate_content env c images si p).1 = GenResult.failure FailKind.configError ∧
    (generate_content env c images si p).2.remoteCalls = c.remoteCalls ∧
    (generate_content env c images si p).2.requests = c.requests ∧
    configErrorOnly (generate_content env c images si p).2 := by
  unfold generate_content
  cases hf : c.cache.find? (fun e => e.1 == (si, p)) with
  | some e =>
    have he : e ∈ c.cache := List.mem_of_find?_eq_some hf
    simp [hf]
    exact ⟨hc e he, hc⟩
  | none =>
    simp [hf, h]
    unfold configErrorOnly at hc ⊢
    intro e he
    simp at he
    rcases he with he | he
    · rw [he]
    · exact hc e he

/-- C1 (counterexample): with a configured client whose remote call fails,
the first `generate_content` call returns the API failure, that failure IS
stored in the result cache, and the immediate retry under the same request
performs no remote invocation — contradicting the claim that failures are
never cached and that a retry always re-invokes the remote call. -/
theorem c1_counterexample :
    (generate_content cexEnvC1 initCache [] (fc_sys_instruction ("General Study")) fc_prompt).1 =
      GenResult.failure (FailKind.apiError ("boom")) ∧
    (generate_content cexEnvC1 initCache [] (fc_sys_instruction ("General Study")) fc_prompt).2.cache =
      [((fc_sys_instruction ("General Study"), fc_prompt),
        GenResult.failure (FailKind.apiError ("boom")))] ∧
    (generate_content cexEnvC1
        (generate_content cexEnvC1 initCache [] (fc_sys_instruction ("General Study")) fc_prompt).2
        [] (fc_sys_instruction ("General Study")) fc_prompt).2.remoteCalls =
      (generate_content cexEnvC1 initCache [] (fc_sys_instruction ("General Study")) fc_prompt).2.remoteCalls :=
  ⟨rfl, rfl, rfl⟩

/-- C1 (amended): `st.cache_data` stores the `None` returned on a failed
attempt, so a subsequent `generate_content` call for the same request with
no intervening cache clear returns the cached failure and does not
re-invoke the remote model. -/
theorem c1_failure_cached (env : Env) (c : CacheState) (images : List Img)
    (si p : String) (k : FailKind)
    (h : (generate_content env c images si p).1 = GenResult.failure k) :
    (generate_content env (generate_content env c images si p).2 images si p).1 =
      GenResult.failure k ∧
    (generate_content env (generate_content env c images si p).2 images si p).2.remoteCalls =
      (generate_content env c images si p).2.remoteCalls := by
  have hs := generate_content_stable env c images images si p
  exact ⟨by rw [hs]; exact h, by rw [hs]⟩

/-- Witness for `c1_failure_cached` at a concrete failing environment. -/
theorem c1_failure_cached_witness :
    (generate_content cexEnvC1
        (generate_content cexEnvC1 initCache [0] (quiz_sys_instruction ("General Study")) quiz_prompt).2
        [0] (quiz_sys_instruction ("General Study")) quiz_prompt).1 =
      GenResult.failure (FailKind.apiError ("boom")) ∧
    (generate_content cexEnvC1
        (generate_content cexEnvC1 initCache [0] (quiz_sys_instruction ("General Study")) quiz_prompt).2
        [0] (quiz_sys_instruction ("General Study")) quiz_prompt).2.remoteCalls =
      (generate_content cexEnvC1 initCache [0] (quiz_sys_instruction ("General Study")) quiz_prompt).2.remoteCalls :=
  c1_failure_cached cexEnvC1 initCache [0] (quiz_sys_instruction ("General Study")) quiz_prompt
    (FailKind.apiError ("boom")) rfl

/-- C2 (counterexample): two requests that differ only in their image set
share a cache entry.  Under `cexEnvC2` the first call with image set `[0]`
returns the payload A; the second call with image set `[1]` — no intervening
cache clear — is served the same cached payload A with no remote call, even
though a fresh call with image set `[1]` would return the payload B. -/
theorem c2_counterexample :
    (generate_content cexEnvC2 initCache [0] (fc_sys_instruction ("General Study")) fc_prompt).1 =
      GenResult.success (Json.str ("A")) ∧
    (generate_content cexEnvC2
        (generate_content cexEnvC2 initCache [0] (fc_sys_instruction ("General Study")) fc_prompt).2
        [1] (fc_sys_instruction ("General Study")) fc_prompt).1 =
      GenResult.success (Json.str ("A")) ∧
    (generate_content cexEnvC2
        (generate_content cexEnvC2 initCache [0] (fc_sys_instruction ("General Study")) fc_prompt).2
        [1] (fc_sys_instruction ("General Study")) fc_prompt).2.remoteCalls =
      (generate_content cexEnvC2 initCache [0] (fc_sys_instruction ("General Study")) fc_prompt).2.remoteCalls ∧
    (generate_content cexEnvC2 initCache [1] (fc_sys_instruction ("General Study")) fc_prompt).1 =
      GenResult.success (Json.str ("B")) :=
  ⟨rfl, rfl, rfl, rfl⟩

/-- C2 (amended): the result-cache key is only (system_instruction, prompt)
— the subject and task, the image set being an underscore-prefixed argument
excluded from hashing — so a second request differing only in its image set
is served the first request's cached result with no remote call; stale
results across image sets are prevented solely by the full cache clear that
the Analyze trigger performs before any new request. -/
theorem c2_key_excludes_images (env : Env) (c : CacheState) (i1 i2 : List Img)
    (si p : String) (d : Option (List Img)) (subj : String) (s : Session) :
    (generate_content env (generate_content env c i1 si p).2 i2 si p).1 =
      (generate_content env c i1 si p).1 ∧
    (generate_content env (generate_content env c i1 si p).2 i2 si p).2.remoteCalls =
      (generate_content env c i1 si p).2.remoteCalls ∧
    (analyzeTrigger d subj s c).2.cache = [] := by
  have hs := generate_content_stable env c i1 i2 si p
  exact ⟨by rw [hs], by rw [hs], rfl⟩

/-- C4: with no client configured, every `generate_content` call reachable
from startup (any sequence of prior calls) returns the config-error `None`
immediately, and no network request is ever issued. -/
theorem c4_config_short_circuit (env : Env) (h : env.clientConfigured = false)
    (calls : List (List Img × String × String)) (images : List Img) (si p : String) :
    (generate_content env (runCalls env initCache calls) images si p).1 =
      GenResult.failure FailKind.configError ∧
    (generate_content env (runCalls env initCache calls) images si p).2.remoteCalls = 0 ∧
    (generate_content env (runCalls env initCache calls) images si p).2.requests = [] := by
  have inv : ∀ (cs : List (List Img × String × String)) (c : CacheState),
      configErrorOnly c → c.remoteCalls = 0 → c.requests = [] →
      configErrorOnly (runCalls env c cs) ∧ (runCalls env c cs).remoteCalls = 0 ∧
        (runCalls env c cs).requests = [] := by
    intro cs
    induction cs with
    | nil => intro c h1 h2 h3; exact ⟨h1, h2, h3⟩
    | cons q rest ih =>
      intro c h1 h2 h3
      have ha := generate_content_noClient env h c h1 q.1 q.2.1 q.2.2
      exact ih _ ha.2.2.2 (ha.2.1.trans h2) (ha.2.2.1.trans h3)
  have hinit : configErrorOnly initCache := by intro e he; simp [initCache] at he
  have hi := inv calls initCache hinit rfl rfl
  have ha := generate_content_noClient env h (runCalls env initCache calls) hi.1 images si p
  exact ⟨ha.1, ha.2.1.trans hi.2.1, ha.2.2.1.trans hi.2.2⟩

/-- Witness for `c4_config_short_circuit`: the very first call at startup. -/
theorem c4_config_short_circuit_witness :
    (generate_content noClientEnv (runCalls noClientEnv initCache []) []
        (fc_sys_instruction ("General Study")) fc_prompt).1 =
      GenResult.failure FailKind.configError ∧
    (generate_content noClientEnv (runCalls noClientEnv initCache []) []
        (fc_sys_instruction ("General Study")) fc_prompt).2.remoteCalls = 0 ∧
    (generate_content noClientEnv (runCalls noClientEnv initCache []) []
        (fc_sys_instruction ("General Study")) fc_prompt).2.requests = [] :=
  c4_config_short_circuit noClientEnv rfl [] [] (fc_sys_instruction ("General Study")) fc_prompt

/-- C5: calling `generate_content` twice for an unchanged request with no
intervening cache clear, the first call having succeeded, issues at most one
remote invocation: the second call is a cache hit returning the same payload
and leaving the cache state untouched. -/
theorem c5_second_call_cache_hit (env : Env) (c : CacheState) (images : List Img)
    (si p : String) (j : Json)
    (h : (generate_content env c images si p).1 = GenResult.success j) :
    (generate_content env (generate_content env c images si p).2 images si p).1 =
      GenResult.success j ∧
    (generate_content env (generate_content env c images si p).2 images si p).2 =
      (generate_content env c images si p).2 ∧
    (generate_content env c images si p).2.remoteCalls ≤ c.remoteCalls + 1 := by
  have hs := generate_content_stable env c images images si p
  exact ⟨by rw [hs]; exact h, by rw [hs],
    generate_content_remoteCalls_le env c images si p⟩

/-- Witness for `c5_second_call_cache_hit` at a concrete environment whose
first call succeeds with the empty-array payload. -/
theorem c5_second_call_cache_hit_witness :
    (generate_content jsonListEnv
        (generate_content jsonListEnv initCache [0] (fc_sys_instruction ("General Study")) fc_prompt).2
        [0] (fc_sys_instruction ("General Study")) fc_prompt).1 =
      GenResult.success (Json.arr []) ∧
    (generate_content jsonListEnv
        (generate_content jsonListEnv initCache [0] (fc_sys_instruction ("General Study")) fc_prompt).2
        [0] (fc_sys_instruction ("General Study")) fc_prompt).2 =
      (generate_content jsonListEnv initCache [0] (fc_sys_instruction ("General Study")) fc_prompt).2 ∧
    (generate_content jsonListEnv initCache [0] (fc_sys_instruction ("General Study")) fc_prompt).2.remoteCalls ≤
      initCache.remoteCalls + 1 :=
  c5_second_call_cache_hit jsonListEnv initCache [0] (fc_sys_instruction ("General Study")) fc_prompt
    (Json.arr []) rfl

/-- C7: cleaning the already-clean URL returns it unchanged, and cleaning
the quote-wrapped URL strips the surrounding double quotes. -/
theorem c7_clean_url :
    cleanUrl ("https://youtu.be/abc") = "https://youtu.be/abc" ∧
    cleanUrl ("\"https://youtu.be/abc\"") = "https://youtu.be/abc" :=
  ⟨by decide, by decide⟩

/-- C8: when the client is configured, the request is not cached, and the
remote model returns text that `json.loads` cannot parse, `generate_content`
returns the parse-error `None` carrying the first 200 characters of the raw
response text (surfaced via `st.error` at line 129), after exactly one
remote invocation and with no exception escaping. -/
theorem c8_parse_error (env : Env) (c : CacheState) (images : List Img)
    (si p text : String)
    (hconf : env.clientConfigured = true)
    (hmiss : c.cache.find? (fun e => e.1 == (si, p)) = none)
    (hrem : env.remote images si p = RemoteOutcome.returns text)
    (hparse : env.parse text = none) :
    (generate_content env c images si p).1 =
      GenResult.failure (FailKind.parseError (text.take 200)) ∧
    (generate_content env c images si p).2.remoteCalls = c.remoteCalls + 1 := by
  unfold generate_content
  simp [hmiss, hconf, hrem, hparse]

/-- Witness for `c8_parse_error`: the model answers with prose, not JSON. -/
theorem c8_parse_error_witness :
    (generate_content cexEnvC8 initCache [0] (solver_sys_instruction ("General Study")) solver_prompt).1 =
      GenResult.failure (FailKind.parseError (String.take ("Sorry, I cannot help") 200)) ∧
    (generate_content cexEnvC8 initCache [0] (solver_sys_instruction ("General Study")) solver_prompt).2.remoteCalls =
      initCache.remoteCalls + 1 :=
  c8_parse_error cexEnvC8 initCache [0] (solver_sys_instruction ("General Study")) solver_prompt
    ("Sorry, I cannot help") rfl rfl rfl rfl

/-- C3 (counterexample): a flashcards payload that is an array whose object
lacks the required keys is a `Success` for the pipeline, but rendering it
raises an uncaught `KeyError` instead of showing the warning. -/
theorem c3_counterexample :
    renderFlashcards (GenResult.success (Json.arr [Json.obj []])).toPy =
      Except.error ("KeyError") := rfl

/-- C3 (amended): the explainer and video panels guard their required
top-level keys, rendering the warning on an object that lacks them; the
flashcards and quiz panels render the warning only when the payload is falsy
(absent or empty) — a truthy payload of the wrong shape raises during
rendering, as the counterexample shows. -/
theorem c3_missing_key_warns (fields : List (String × Json)) (j q : Json) (s : Session)
    (htut : hasKey fields ("tutor_response") = false)
    (hvid : hasKey fields ("video_url") = false)
    (hfc : pyTruthy j = false) (hq : pyTruthy q = false) :
    renderExplainer (some (Json.obj fields)) = Except.ok TabMsg.warning ∧
    videoHandlePayload s (some (Json.obj fields)) = Except.ok (TabMsg.warning, s) ∧
    renderFlashcards (some j) = Except.ok TabMsg.warning ∧
    renderFlashcards none = Except.ok TabMsg.warning ∧
    renderQuiz (some q) = Except.ok TabMsg.warning ∧
    renderQuiz none = Except.ok TabMsg.warning := by
  refine ⟨?_, ?_, ?_, rfl, ?_, rfl⟩
  · unfold renderExplainer
    by_cases ht : pyTruthy (Json.obj fields)
    · simp [ht, pyContains, htut]
    · simp [ht]
  · unfold videoHandlePayload
    by_cases ht : pyTruthy (Json.obj fields)
    · simp [ht, pyContains, hvid]
    · simp [ht]
  · unfold renderFlashcards
    simp [hfc]
  · unfold renderQuiz
    simp [hq]

/-- Witness for `c3_missing_key_warns` on concrete malformed payloads. -/
theorem c3_missing_key_warns_witness :
    renderExplainer (some (Json.obj [(("x" : String), Json.null)])) = Except.ok TabMsg.warning ∧
    videoHandlePayload initSession (some (Json.obj [(("x" : String), Json.null)])) =
      Except.ok (TabMsg.warning, initSession) ∧
    renderFlashcards (some (Json.arr [])) = Except.ok TabMsg.warning ∧
    renderFlashcards none = Except.ok TabMsg.warning ∧
    renderQuiz (some (Json.arr [])) = Except.ok TabMsg.warning ∧
    renderQuiz none = Except.ok TabMsg.warning :=
  c3_missing_key_warns [(("x" : String), Json.null)] (Json.arr []) (Json.arr []) initSession
    (by decide) (by decide) (by decide) (by decide)

/-- C6 (counterexample): the video recommendation CAN be set with an empty
URL (the model returned `video_url = ""`), and a later render of the video
panel after a cache clear re-invokes the remote model even though both
session fields are populated — the stored empty string is falsy, so the
panel's session-state guard does not fire. -/
theorem c6_counterexample :
    renderVideoTab cexEnvC6 readySession initCache = Except.ok (TabMsg.success, s1c6, c1c6) ∧
    s1c6.video_url = some ("") ∧
    s1c6.video_search_query = some (Json.str ("q")) ∧
    renderVideoTab cexEnvC6 s1c6 { cache := [], remoteCalls := 1, requests := [] } =
      Except.ok (TabMsg.success, s1c6, c2c6) ∧
    c2c6.remoteCalls = 2 :=
  ⟨rfl, rfl, rfl, rfl, rfl⟩

/-- C6 (amended): once `video_url` holds a non-empty (truthy) string, a
render of the video panel shows the stored recommendation and performs no
generation call at all — the cache state, even one cleared by some other
action, is returned untouched and no remote invocation happens. -/
theorem c6_video_not_recomputed (env : Env) (s : Session) (c : CacheState) (u : String)
    (h1 : s.video_url = some u) (h2 : u ≠ "") :
    renderVideoTab env s c = Except.ok (TabMsg.success, s, c) := by
  unfold renderVideoTab
  have ht : pyTruthyStrOpt s.video_url = true := by
    rw [h1]
    simp [pyTruthyStrOpt, h2]
  simp [ht]

/-- Witness for `c6_video_not_recomputed` on a populated recommendation and
an empty (just-cleared) cache. -/
theorem c6_video_not_recomputed_witness :
    renderVideoTab noClientEnv svid initCache = Except.ok (TabMsg.success, svid, initCache) :=
  c6_video_not_recomputed noClientEnv svid initCache ("https://youtu.be/abc") rfl (by decide)

/-- A key reported present by `hasKey` is found by `List.find?`. -/
theorem hasKey_find (fields : List (String × Json)) (k : String)
    (h : hasKey fields k = true) :
    ∃ f, fields.find? (fun f => f.1 == k) = some f := by
  induction fields with
  | nil => simp [hasKey] at h
  | cons f fs ih =>
    by_cases hf : (f.1 == k) = true
    · exact ⟨f, by simp [List.find?, hf]⟩
    · simp only [hasKey, List.any_cons, Bool.or_eq_true] at h
      rcases h with h | h
      · exact absurd h hf
      · obtain ⟨g, hg⟩ := ih (by simpa [hasKey] using h)
        refine ⟨g, ?_⟩
        simp only [List.find?, hf]
        exact hg

/-- A successful `videoHandlePayload` leaves the session consistent. -/
theorem videoHandlePayload_ok (s : Session) (res : Option Json) (m : TabMsg) (s2 : Session)
    (h : vidConsistent s = true)
    (hr : videoHandlePayload s res = Except.ok (m, s2)) : vidConsistent s2 = true := by
  unfold videoHandlePayload at hr
  split at hr
  · cases hr; exact h
  · split at hr
    · split at hr
      · exact absurd hr (by simp)
      · cases hr; exact h
      · split at hr
        · exact absurd hr (by simp)
        · cases hr; exact h
        · split at hr
          · exact absurd hr (by simp)
          · split at hr
            · split at hr
              · exact absurd hr (by simp)
              · cases hr
                simp [vidConsistent]
            · exact absurd hr (by simp)
    · cases hr; exact h

/-- A raising `videoHandlePayload` leaves the session consistent: every raise
happens before the first session write (the write at line 319 is followed by
a read that cannot fail once the guards have passed). -/
theorem videoHandlePayload_error (s : Session) (res : Option Json) (e : String) (s2 : Session)
    (h : vidConsistent s = true)
    (hr : videoHandlePayload s res = Except.error (e, s2)) : vidConsistent s2 = true := by
  unfold videoHandlePayload at hr
  cases res with
  | none => exact absurd hr (by simp)
  | some j =>
    by_cases ht : pyTruthy j = true
    · simp only [ht, if_true] at hr
      cases hc1 : pyContains j ("video_url") with
      | error e1 =>
        simp only [hc1, Except.error.injEq, Prod.mk.injEq] at hr
        rw [← hr.2]; exact h
      | ok b1 =>
        cases b1 with
        | false =>
          simp only [hc1] at hr
          exact absurd hr (by simp)
        | true =>
          simp only [hc1] at hr
          cases hc2 : pyContains j ("video_search_query") with
          | error e2 =>
            simp only [hc2, Except.error.injEq, Prod.mk.injEq] at hr
            rw [← hr.2]; exact h
          | ok b2 =>
            cases b2 with
            | false =>
              simp only [hc2] at hr
              exact absurd hr (by simp)
            | true =>
              simp only [hc2] at hr
              cases hs1 : pySubscript j ("video_url") with
              | error e3 =>
                simp only [hs1, Except.error.injEq, Prod.mk.injEq] at hr
                rw [← hr.2]; exact h
              | ok raw =>
                simp only [hs1] at hr
                cases j with
                | null => simp [pySubscript] at hs1
                | bool b => simp [pySubscript] at hs1
                | num n => simp [pySubscript] at hs1
                | str t => simp [pySubscript] at hs1
                | arr xs => simp [pySubscript] at hs1
                | obj fields =>
                  have hk : hasKey fields ("video_search_query") = true := by
                    simpa [pyContains] using hc2
                  obtain ⟨g, hg⟩ := hasKey_find fields ("video_search_query") hk
                  cases raw with
                  | str rawStr =>
                    rw [show pySubscript (Json.obj fields) ("video_search_query") = Except.ok g.2 from by
                      simp [pySubscript, hg]] at hr
                    exact absurd hr (by simp)
                  | null =>
                    simp only [Except.error.injEq, Prod.mk.injEq] at hr
                    rw [← hr.2]; exact h
                  | bool b =>
                    simp only [Except.error.injEq, Prod.mk.injEq] at hr
                    rw [← hr.2]; exact h
                  | num n =>
                    simp only [Except.error.injEq, Prod.mk.injEq] at hr
                    rw [← hr.2]; exact h
                  | arr xs =>
                    simp only [Except.error.injEq, Prod.mk.injEq] at hr
                    rw [← hr.2]; exact h
                  | obj fs2 =>
                    simp only [Except.error.injEq, Prod.mk.injEq] at hr
                    rw [← hr.2]; exact h
    · rw [Bool.not_eq_true] at ht
      simp only [ht, Bool.false_eq_true, if_false] at hr
      exact absurd hr (by simp)

/-- A successful video-tab render leaves the session consistent. -/
theorem renderVideoTab_ok (env : Env) (s : Session) (c : CacheState) (m : TabMsg)
    (s2 : Session) (c2 : CacheState) (h : vidConsistent s = true)
    (hr : renderVideoTab env s c = Except.ok (m, s2, c2)) : vidConsistent s2 = true := by
  unfold renderVideoTab at hr
  by_cases ht : pyTruthyStrOpt s.video_url = true
  · simp only [ht, if_true, Except.ok.injEq, Prod.mk.injEq] at hr
    rw [← hr.2.1]; exact h
  · rw [Bool.not_eq_true] at ht
    simp only [ht, Bool.false_eq_true, if_false] at hr
    cases hv : videoHandlePayload s
        (generate_content env c s.image_list (video_sys_instruction s.subject) video_prompt).1.toPy with
    | error es => simp only [hv] at hr; exact absurd hr (by simp)
    | ok ms =>
      simp only [hv, Except.ok.injEq, Prod.mk.injEq] at hr
      rw [← hr.2.1]
      exact videoHandlePayload_ok s _ ms.1 ms.2 h hv

/-- A raising video-tab render leaves the session consistent. -/
theorem renderVideoTab_error (env : Env) (s : Session) (c : CacheState) (e : String)
    (s2 : Session) (c2 : CacheState) (h : vidConsistent s = true)
    (hr : renderVideoTab env s c = Except.error (e, s2, c2)) : vidConsistent s2 = true := by
  unfold renderVideoTab at hr
  by_cases ht : pyTruthyStrOpt s.video_url = true
  · simp only [ht, if_true] at hr
    exact absurd hr (by simp)
  · rw [Bool.not_eq_true] at ht
    simp only [ht, Bool.false_eq_true, if_false] at hr
    cases hv : videoHandlePayload s
        (generate_content env c s.image_list (video_sys_instruction s.subject) video_prompt).1.toPy with
    | ok ms => simp only [hv] at hr; exact absurd hr (by simp)
    | error es =>
      simp only [hv, Except.error.injEq, Prod.mk.injEq] at hr
      rw [← hr.2.1]
      exact videoHandlePayload_error s _ es.1 es.2 h hv

/-- A completed rendering pass leaves the session consistent. -/
theorem renderPass_ok_consistent (env : Env) (s : Session) (c : CacheState)
    (h : vidConsistent s = true) (s2 : Session) (c2 : CacheState) (msgs : List TabMsg)
    (hr : renderPass env s c = PassResult.ok s2 c2 msgs) : vidConsistent s2 = true := by
  unfold renderPass at hr
  by_cases hready : s.ready = true
  · simp only [hready, if_true] at hr
    split at hr
    · exact absurd hr (by simp)
    · split at hr
      · exact absurd hr (by simp)
      · split at hr
        · exact absurd hr (by simp)
        · split at hr
          · exact absurd hr (by simp)
          · rename_i msc heq
            simp only [PassResult.ok.injEq] at hr
            rw [← hr.1]
            exact renderVideoTab_ok env s _ msc.1 msc.2.1 msc.2.2 h heq
  · rw [Bool.not_eq_true] at hready
    simp only [hready, Bool.false_eq_true, if_false, PassResult.ok.injEq] at hr
    rw [← hr.1]; exact h

/-- A crashed rendering pass leaves the session consistent at the raise. -/
theorem renderPass_crash_consistent (env : Env) (s : Session) (c : CacheState)
    (h : vidConsistent s = true) (e : String) (s2 : Session) (c2 : CacheState)
    (hr : renderPass env s c = PassResult.crash e s2 c2) : vidConsistent s2 = true := by
  unfold renderPass at hr
  by_cases hready : s.ready = true
  · simp only [hready, if_true] at hr
    split at hr
    · simp only [PassResult.crash.injEq] at hr
      rw [← hr.2.1]; exact h
    · split at hr
      · simp only [PassResult.crash.injEq] at hr
        rw [← hr.2.1]; exact h
      · split at hr
        · simp only [PassResult.crash.injEq] at hr
          rw [← hr.2.1]; exact h
        · split at hr
          · rename_i esc heq
            simp only [PassResult.crash.injEq] at hr
            rw [← hr.2.1]
            exact renderVideoTab_error env s _ esc.1 esc.2.1 esc.2.2 h heq
          · exact absurd hr (by simp)
  · rw [Bool.not_eq_true] at hready
    simp only [hready, Bool.false_eq_true, if_false] at hr
    exact absurd hr (by simp)

/-- C10: the two video session fields are both `None` or both populated: the
invariant holds after initialisation, after the Analyze trigger, and is
preserved by every rendering pass — completed or aborted by a raise. -/
theorem c10_video_fields_together :
    vidConsistent initSession = true ∧
    (∀ d subj s c, vidConsistent (analyzeTrigger d subj s c).1 = true) ∧
    (∀ env s c, vidConsistent s = true →
      (∀ s2 c2 msgs, renderPass env s c = PassResult.ok s2 c2 msgs → vidConsistent s2 = true) ∧
      (∀ e s2 c2, renderPass env s c = PassResult.crash e s2 c2 → vidConsistent s2 = true)) :=
  ⟨rfl, fun _ _ _ _ => rfl,
   fun env s c h =>
    ⟨fun s2 c2 msgs hr => renderPass_ok_consistent env s c h s2 c2 msgs hr,
     fun e s2 c2 hr => renderPass_crash_consistent env s c h e s2 c2 hr⟩⟩

/-- Witness for `c10_video_fields_together` on a concrete idle pass. -/
theorem c10_video_fields_together_witness :
    vidConsistent initSession = true :=
  (c10_video_fields_together.2.2 noClientEnv initSession initCache rfl).1
    initSession initCache [] rfl

/-- On a cache miss with a configured client, `generate_content` stores its
result under the key and logs exactly one new remote request. -/
theorem generate_content_miss (env : Env) (c : CacheState) (images : List Img)
    (si p : String) (hconf : env.clientConfigured = true)
    (hmiss : c.cache.find? (fun e => e.1 == (si, p)) = none) :
    (generate_content env c images si p).2.cache =
      ((si, p), (generate_content env c images si p).1) :: c.cache ∧
    (generate_content env c images si p).2.requests = c.requests ++ [(images, si, p)] := by
  unfold generate_content
  simp [hmiss, hconf]

/-- A cache lookup skips an entry stored under a different key. -/
theorem find?_key_cons {r : GenResult} {k1 k2 : String × String}
    {l : List ((String × String) × GenResult)} (h : (k1 == k2) = false) :
    ((k1, r) :: l).find? (fun e => e.1 == k2) = l.find? (fun e => e.1 == k2) := by
  simp [List.find?, h]

/-- Two cache keys with distinct prompts are distinct. -/
theorem key_ne (x u y v : String) (h : (y == v) = false) :
    (((x, y) : String × String) == (u, v)) = false := by
  show (x == u && y == v) = false
  rw [h]
  simp

theorem fcq_prompt_ne : (fc_prompt == quiz_prompt) = false := by decide

theorem fcs_prompt_ne : (fc_prompt == solver_prompt) = false := by decide

theorem fcv_prompt_ne : (fc_prompt == video_prompt) = false := by decide

theorem qs_prompt_ne : (quiz_prompt == solver_prompt) = false := by decide

theorem qv_prompt_ne : (quiz_prompt == video_prompt) = false := by decide

theorem sv_prompt_ne : (solver_prompt == video_prompt) = false := by decide

/-- C9: when `Image.open` raises during the Analyze action, the trigger still
sets `ready` with an empty image list, and a subsequent completed rendering
pass issues all four generation requests, each carrying zero images. -/
theorem c9_decode_failure_generates (env : Env) (s : Session) (c : CacheState)
    (subj : String) (hconf : env.clientConfigured = true) (hreq : c.requests = []) :
    (analyzeTrigger none subj s c).1.ready = true ∧
    (analyzeTrigger none subj s c).1.image_list = [] ∧
    (∀ s2 c2 msgs,
      renderPass env (analyzeTrigger none subj s c).1 (analyzeTrigger none subj s c).2 =
        PassResult.ok s2 c2 msgs →
      c2.requests =
        [([], fc_sys_instruction subj, fc_prompt),
         ([], quiz_sys_instruction subj, quiz_prompt),
         ([], solver_sys_instruction subj, solver_prompt),
         ([], video_sys_instruction subj, video_prompt)]) := by
  refine ⟨rfl, rfl, ?_⟩
  intro s2 c2 msgs hr
  set s1 := (analyzeTrigger none subj s c).1 with hs1def
  set c1 := (analyzeTrigger none subj s c).2 with hc1def
  have hready : s1.ready = true := rfl
  have him : s1.image_list = [] := rfl
  have hsub : s1.subject = subj := rfl
  have hvu : s1.video_url = none := rfl
  have hqc1 : c1.requests = [] := hreq
  simp only [renderPass, hready, if_true, him, hsub] at hr
  have hmiss1 : c1.cache.find? (fun e => e.1 == (fc_sys_instruction subj, fc_prompt)) = none := rfl
  have hm1 := generate_content_miss env c1 [] (fc_sys_instruction subj) fc_prompt hconf hmiss1
  have k12 := key_ne (fc_sys_instruction subj) (quiz_sys_instruction subj) fc_prompt quiz_prompt fcq_prompt_ne
  have k13 := key_ne (fc_sys_instruction subj) (solver_sys_instruction subj) fc_prompt solver_prompt fcs_prompt_ne
  have k14 := key_ne (fc_sys_instruction subj) (video_sys_instruction subj) fc_prompt video_prompt fcv_prompt_ne
  have k23 := key_ne (quiz_sys_instruction subj) (solver_sys_instruction subj) quiz_prompt solver_prompt qs_prompt_ne
  have k24 := key_ne (quiz_sys_instruction subj) (video_sys_instruction subj) quiz_prompt video_prompt qv_prompt_ne
  have k34 := key_ne (solver_sys_instruction subj) (video_sys_instruction subj) solver_prompt video_prompt sv_prompt_ne
  have hmiss2 : (generate_content env c1 [] (fc_sys_instruction subj) fc_prompt).2.cache.find?
      (fun e => e.1 == (quiz_sys_instruction subj, quiz_prompt)) = none := by
    rw [hm1.1, find?_key_cons k12]
    rfl
  have hm2 := generate_content_miss env
    (generate_content env c1 [] (fc_sys_instruction subj) fc_prompt).2 []
    (quiz_sys_instruction subj) quiz_prompt hconf hmiss2
  have hmiss3 : (generate_content env
      (generate_content env c1 [] (fc_sys_instruction subj) fc_prompt).2 []
      (quiz_sys_instruction subj) quiz_prompt).2.cache.find?
      (fun e => e.1 == (solver_sys_instruction subj, solver_prompt)) = none := by
    rw [hm2.1, find?_key_cons k23, hm1.1, find?_key_cons k13]
    rfl
  have hm3 := generate_content_miss env
    (generate_content env
      (generate_content env c1 [] (fc_sys_instruction subj) fc_prompt).2 []
      (quiz_sys_instruction subj) quiz_prompt).2 []
    (solver_sys_instruction subj) solver_prompt hconf hmiss3
  have hmiss4 : (generate_content env
      (generate_content env
        (generate_content env c1 [] (fc_sys_instruction subj) fc_prompt).2 []
        (quiz_sys_instruction subj) quiz_prompt).2 []
      (solver_sys_instruction subj) solver_prompt).2.cache.find?
      (fun e => e.1 == (video_sys_instruction subj, video_prompt)) = none := by
    rw [hm3.1, find?_key_cons k34, hm2.1, find?_key_cons k24,
        hm1.1, find?_key_cons k14]
    rfl
  have hm4 := generate_content_miss env
    (generate_content env
      (generate_content env
        (generate_content env c1 [] (fc_sys_instruction subj) fc_prompt).2 []
        (quiz_sys_instruction subj) quiz_prompt).2 []
      (solver_sys_instruction subj) solver_prompt).2 []
    (video_sys_instruction subj) video_prompt hconf hmiss4
  have hq4 : (generate_content env
      (generate_content env
        (generate_content env
          (generate_content env c1 [] (fc_sys_instruction subj) fc_prompt).2 []
          (quiz_sys_instruction subj) quiz_prompt).2 []
        (solver_sys_instruction subj) solver_prompt).2 []
      (video_sys_instruction subj) video_prompt).2.requests =
      [([], fc_sys_instruction subj, fc_prompt),
       ([], quiz_sys_instruction subj, quiz_prompt),
       ([], solver_sys_instruction subj, solver_prompt),
       ([], video_sys_instruction subj, video_prompt)] := by
    rw [hm4.2, hm3.2, hm2.2, hm1.2, hqc1]
    rfl
  split at hr
  · exact absurd hr (by simp)
  · split at hr
    · exact absurd hr (by simp)
    · split at hr
      · exact absurd hr (by simp)
      · split at hr
        · exact absurd hr (by simp)
        · rename_i msc heq
          simp only [PassResult.ok.injEq] at hr
          simp only [renderVideoTab, hvu, pyTruthyStrOpt, Bool.false_eq_true, if_false,
            him, hsub] at heq
          split at heq
          · exact absurd heq (by simp)
          · rename_i ms heq2
            simp only [Except.ok.injEq] at heq
            rw [← hr.2.1, ← heq]
            exact hq4

/-- Witness for `c9_decode_failure_generates`: a full concrete run whose
decode fails, under a client answering the empty JSON array. -/
theorem c9_decode_failure_generates_witness :
    (analyzeTrigger none ("General Study") initSession initCache).1.ready = true ∧
    c2w9.requests =
      [([], fc_sys_instruction ("General Study"), fc_prompt),
       ([], quiz_sys_instruction ("General Study"), quiz_prompt),
       ([], solver_sys_instruction ("General Study"), solver_prompt),
       ([], video_sys_instruction ("General Study"), video_prompt)] :=
  ⟨(c9_decode_failure_generates jsonListEnv initSession initCache ("General Study") rfl rfl).1,
   (c9_decode_failure_generates jsonListEnv initSession initCache ("General Study") rfl rfl).2.2
     readySession c2w9 [TabMsg.warning, TabMsg.warning, TabMsg.warning, TabMsg.warning] rfl⟩
